import Mathlib

/-!
Shallow embedding of the SuperMicro IPMI fan-control client
(src/ipmi_control.py and src/super_micro_fan_controller.py).

The transport collaborator (pyipmi session / raw_command) is modelled as
pure response functions: a repository function mapping a two-byte record
address to the raw response bytes of the single-record retrieval command,
and a sensor function mapping a sensor number to the raw response bytes of
the reading query.  Machine bytes are Nat values; byte strings are List Nat.
Python exceptions are modelled as Option results (none = exception raised).
-/

/-- Constant from pyipmi.sdr: byte code of a full sensor record. -/
def SDR_TYPE_FULL_SENSOR_RECORD : Nat := 0x01

/-- Constant from pyipmi.sdr: byte code of a compact sensor record. -/
def SDR_TYPE_COMPACT_SENSOR_RECORD : Nat := 0x02

/-- Constant from pyipmi.sensor: byte code of the temperature sensor type. -/
def SENSOR_TYPE_TEMPERATURE : Nat := 0x01

/-- Class attribute SuperMicroFanControl.NETFN_SUPER_OEM. -/
def NETFN_SUPER_OEM : Nat := 0x30

/-- Class attribute SuperMicroFanControl.BMC_STATUS. -/
def BMC_STATUS : Nat := 0x70

/-- The SuperMicroFanControl.FanMode enum (six members, byte codes 0x00-0x05;
the heavy-io member is spelled in camel case here). -/
inductive FanMode
  | STANDARD
  | FULL_SPEED
  | OPTIMAL
  | PUE2_OPTIMAL
  | HeavyIo
  | PUE3_OPTIMAL
deriving DecidableEq, Repr

/-- Byte code of a FanMode member (the Python enum value). -/
def FanMode.value : FanMode → Nat
  | .STANDARD => 0x00
  | .FULL_SPEED => 0x01
  | .OPTIMAL => 0x02
  | .PUE2_OPTIMAL => 0x03
  | .HeavyIo => 0x04
  | .PUE3_OPTIMAL => 0x05

/-- The Python enum constructor call FanMode(b): looks a byte up among the
member values; none models the ValueError raised for an unrecognized byte. -/
def FanMode.ofValue : Nat → Option FanMode
  | 0x00 => some .STANDARD
  | 0x01 => some .FULL_SPEED
  | 0x02 => some .OPTIMAL
  | 0x03 => some .PUE2_OPTIMAL
  | 0x04 => some .HeavyIo
  | 0x05 => some .PUE3_OPTIMAL
  | _ => none

/-- The SuperMicroFanControl.Zones enum. -/
inductive Zones
  | CPU
  | PERIPHERAL
deriving DecidableEq, Repr

/-- Byte code of a Zones member (the Python enum value). -/
def Zones.value : Zones → Nat
  | .CPU => 0x00
  | .PERIPHERAL => 0x01

/-- The dictionary returned by SuperMicroFanControl.get_sdr_record on success.
Byte strings (bytearray slices) are kept as lists of byte values. -/
structure SdrRecord where
  next_address : List Nat
  record_id : List Nat
  sdr_version : Nat
  record_type : Nat
  record_length : Nat
  data : List Nat
deriving DecidableEq, Repr

/-- Outcome of decoding one raw retrieval response in get_sdr_record.  The
Python function returns None on both early-return branches; the constructor
records which branch fired (the branches are distinguished in the source by
their debug log messages: the length check comes first, the type check second). -/
inductive DecodeResult
  | lengthMismatch
  | unsupportedType
  | ok (record : SdrRecord)
deriving DecidableEq, Repr

/-- SuperMicroFanControl.get_sdr_record, applied to the raw response bytes of
the retrieval command (the send itself is the job of the transport).  Layout per the
source: next_address = response[1:3]; the starred unpacking
list(record_id), sdr_version, record_type, record_length = response[3:8]
makes record_id the first len(response[3:8]) - 3 bytes of that slice (two bytes
for a full 8-byte header); data = response[8:].  The outer none models the
ValueError the unpacking raises when response[3:8] has fewer than 3 elements. -/
def get_sdr_record : List Nat → Option DecodeResult
  | _ :: a1 :: a2 :: r1 :: r2 :: v :: t :: l :: rest =>
    if rest.length ≠ l then some .lengthMismatch
    else if t ≠ SDR_TYPE_FULL_SENSOR_RECORD ∧ t ≠ SDR_TYPE_COMPACT_SENSOR_RECORD then
      some .unsupportedType
    else some (.ok ⟨[a1, a2], [r1, r2], v, t, l, rest⟩)
  | [_, a1, a2, r1, v, t, l] =>
    if (0 : Nat) ≠ l then some .lengthMismatch
    else if t ≠ SDR_TYPE_FULL_SENSOR_RECORD ∧ t ≠ SDR_TYPE_COMPACT_SENSOR_RECORD then
      some .unsupportedType
    else some (.ok ⟨[a1, a2], [r1], v, t, l, []⟩)
  | [_, a1, a2, v, t, l] =>
    if (0 : Nat) ≠ l then some .lengthMismatch
    else if t ≠ SDR_TYPE_FULL_SENSOR_RECORD ∧ t ≠ SDR_TYPE_COMPACT_SENSOR_RECORD then
      some .unsupportedType
    else some (.ok ⟨[a1, a2], [], v, t, l, []⟩)
  | _ => none

/-- SuperMicroFanControl.get_sensor_reading with the transport modelled by the
sensors response function.  Inner Option is the Python return value (None when
the response is a bare completion code); the outer none models the IndexError
raised by response[1] on an empty response. -/
def get_sensor_reading (sensors : Nat → List Nat) (sensor_number : Nat) :
    Option (Option Nat) :=
  if (sensors sensor_number).length = 1 then some none
  else ((sensors sensor_number).get? 1).map some

/-- SuperMicroFanControl.get_fan_mode applied to the raw response bytes of the
mode query; none models IndexError on a too-short response or the ValueError of
FanMode(response[1]) on an unrecognized mode byte. -/
def get_fan_mode (response : List Nat) : Option FanMode :=
  (response.get? 1).bind FanMode.ofValue

/-- One invocation of send_command: the network function byte and the payload
bytes handed to the transport. -/
structure Cmd where
  netfn : Nat
  data : List Nat
deriving DecidableEq, Repr

/-- The command issued by get_fan_mode. -/
def get_fan_mode_cmd : Cmd := ⟨NETFN_SUPER_OEM, [0x45, 0x00]⟩

/-- Commands issued by SuperMicroFanControl.set_fan_mode.  The membership
validation in the source cannot fail for a FanMode value, so the send is
always reached. -/
def set_fan_mode_cmds (mode : FanMode) : List Cmd :=
  [⟨NETFN_SUPER_OEM, [0x45, 0x01, mode.value]⟩]

/-- The per-zone speed-write command issued in the loop of set_fan_speed. -/
def zone_write_cmd (zs : Zones × Nat) : Cmd :=
  ⟨NETFN_SUPER_OEM, [BMC_STATUS, 0x66, 0x01, zs.1.value, zs.2]⟩

/-- The sequence of send_command invocations performed by
SuperMicroFanControl.set_fan_speed when the mode query decodes to fan_mode and
the fan_speeds dictionary iterates in the given order.  The time.sleep(1)
settle delay issues no command and is omitted from the trace. -/
def set_fan_speed_cmds (fan_mode : FanMode) (fan_speeds : List (Zones × Nat)) :
    List Cmd :=
  get_fan_mode_cmd ::
    ((if fan_mode ≠ FanMode.FULL_SPEED then set_fan_mode_cmds FanMode.FULL_SPEED else [])
      ++ fan_speeds.map zone_write_cmd)

/-- Recognizes a mode-write command (payload starts 0x45 0x01). -/
def is_mode_write (c : Cmd) : Bool :=
  decide (c.data.take 2 = [0x45, 0x01])

/-- Recognizes a per-zone speed-write command (payload starts 0x70 0x66 0x01). -/
def is_zone_speed_write (c : Cmd) : Bool :=
  decide (c.data.take 3 = [BMC_STATUS, 0x66, 0x01])

/-- Return value of SuperMicroFanControl.set_fan_speed with the transport
modelled by resp: the Python local response holds the reply of the last zone
write; none models the UnboundLocalError raised by the final return when the
loop body never ran. -/
def set_fan_speed_ret (resp : Cmd → List Nat) (fan_speeds : List (Zones × Nat)) :
    Option (List Nat) :=
  (fan_speeds.map (fun zs => resp (zone_write_cmd zs))).getLast?

/-- The walk address of get_temperatures.  The variable starts as the Python
list [0x00, 0x00] and is reassigned to a bytearray slice of a response from the
second iteration on; the constructor records which Python type currently holds
the bytes, because the two types compare differently. -/
inductive WalkAddr
  | pyList (addr : List Nat)
  | pyBytes (addr : List Nat)
deriving DecidableEq, Repr

/-- The raw bytes of the walk address (what gets spliced into the command). -/
def WalkAddr.bytes : WalkAddr → List Nat
  | .pyList a => a
  | .pyBytes a => a

/-- The Python comparison record["next_address"] == address.  next_address is a
bytearray slice; comparing a bytearray with a list is always False in Python
regardless of contents, so the comparison can only succeed once the address
variable itself holds a bytearray (from the second iteration on). -/
def next_address_matches (next : List Nat) : WalkAddr → Bool
  | .pyList _ => false
  | .pyBytes a => next == a

/-- Recognizes a UTF-8 continuation byte (0x80-0xBF). -/
def utf8_cont (b : Nat) : Bool :=
  decide (0x80 ≤ b ∧ b ≤ 0xBF)

/-- Strict UTF-8 validity of a byte string, exactly the condition under which
the Python call bytes.decode with the utf-8 codec succeeds rather than raising
UnicodeDecodeError: ASCII bytes stand alone; 0xC2-0xDF open a 2-byte sequence;
0xE0/0xE1-0xEC,0xEE,0xEF/0xED open 3-byte sequences with the first
continuation restricted to 0xA0-0xBF / 0x80-0xBF / 0x80-0x9F (no overlong
forms, no surrogates); 0xF0/0xF1-0xF3/0xF4 open 4-byte sequences with the
first continuation restricted to 0x90-0xBF / 0x80-0xBF / 0x80-0x8F (no
overlong forms, nothing above U+10FFFF); everything else is invalid. -/
def utf8_valid : List Nat → Bool
  | [] => true
  | b :: rest =>
    if b ≤ 0x7F then utf8_valid rest
    else if 0xC2 ≤ b ∧ b ≤ 0xDF then
      match rest with
      | c1 :: rest2 => utf8_cont c1 && utf8_valid rest2
      | [] => false
    else if b = 0xE0 then
      match rest with
      | c1 :: c2 :: rest2 =>
        decide (0xA0 ≤ c1 ∧ c1 ≤ 0xBF) && utf8_cont c2 && utf8_valid rest2
      | _ => false
    else if (0xE1 ≤ b ∧ b ≤ 0xEC) ∨ b = 0xEE ∨ b = 0xEF then
      match rest with
      | c1 :: c2 :: rest2 => utf8_cont c1 && utf8_cont c2 && utf8_valid rest2
      | _ => false
    else if b = 0xED then
      match rest with
      | c1 :: c2 :: rest2 =>
        decide (0x80 ≤ c1 ∧ c1 ≤ 0x9F) && utf8_cont c2 && utf8_valid rest2
      | _ => false
    else if b = 0xF0 then
      match rest with
      | c1 :: c2 :: c3 :: rest2 =>
        decide (0x90 ≤ c1 ∧ c1 ≤ 0xBF) && utf8_cont c2 && utf8_cont c3 && utf8_valid rest2
      | _ => false
    else if 0xF1 ≤ b ∧ b ≤ 0xF3 then
      match rest with
      | c1 :: c2 :: c3 :: rest2 =>
        utf8_cont c1 && utf8_cont c2 && utf8_cont c3 && utf8_valid rest2
      | _ => false
    else if b = 0xF4 then
      match rest with
      | c1 :: c2 :: c3 :: rest2 =>
        decide (0x80 ≤ c1 ∧ c1 ≤ 0x8F) && utf8_cont c2 && utf8_cont c3 && utf8_valid rest2
      | _ => false
    else false

/-- Python dict assignment sensor_data[key] = value: overwrites in place when
the key is present, appends otherwise (insertion order preserved). -/
def dict_insert (sensor_data : List (List Nat × Option Nat)) (key : List Nat)
    (value : Option Nat) : List (List Nat × Option Nat) :=
  if sensor_data.any (fun p => p.1 == key) then
    sensor_data.map (fun p => if p.1 == key then (key, value) else p)
  else sensor_data ++ [(key, value)]

/-- The retrieval loop of SuperMicroFanControl.get_temperatures.  The fuel
argument is the loop bound range(sdr_count).  Returns the sensor_data dict
(none when a Python exception escaped: header-unpack ValueError, data[2] or
data[7] IndexError, the UnicodeDecodeError of the id_string decode, or reading
IndexError) paired with the number of single-record retrieval calls performed.
Rejected records (get_sdr_record returned None in Python) break out of the
loop, returning what was collected.  For a temperature record the source first
computes id_string by decoding data[43:] as utf-8 — raising when the bytes are
not valid UTF-8 — and only then issues the reading query; on valid bytes the
dict key is kept here as the raw byte slice, which is faithful because UTF-8
decoding is injective on valid byte strings. -/
def temp_walk (repo : List Nat → List Nat) (sensors : Nat → List Nat) :
    Nat → WalkAddr → List (List Nat × Option Nat) →
      Option (List (List Nat × Option Nat)) × Nat
  | 0, _, sensor_data => (some sensor_data, 0)
  | n + 1, address, sensor_data =>
    match get_sdr_record (repo address.bytes) with
    | none => (none, 1)
    | some DecodeResult.lengthMismatch => (some sensor_data, 1)
    | some DecodeResult.unsupportedType => (some sensor_data, 1)
    | some (DecodeResult.ok record) =>
      match record.data.get? 2, record.data.get? 7 with
      | some sensor_number, some sensor_type =>
        if sensor_type = SENSOR_TYPE_TEMPERATURE then
          if utf8_valid (record.data.drop 43) then
            match get_sensor_reading sensors sensor_number with
            | none => (none, 1)
            | some sensor_reading =>
              if next_address_matches record.next_address address then
                (some (dict_insert sensor_data (record.data.drop 43) sensor_reading), 1)
              else
                Prod.map id (· + 1)
                  (temp_walk repo sensors n (WalkAddr.pyBytes record.next_address)
                    (dict_insert sensor_data (record.data.drop 43) sensor_reading))
          else (none, 1)
        else
          if next_address_matches record.next_address address then
            (some sensor_data, 1)
          else
            Prod.map id (· + 1)
              (temp_walk repo sensors n (WalkAddr.pyBytes record.next_address) sensor_data)
      | _, _ => (none, 1)

/-- SuperMicroFanControl.get_temperatures with the transport modelled by repo
and sensors.  sdr_count is response[1] of the repository-info query; the
reservation bytes are threaded into every retrieval command unchanged and are
absorbed into repo.  The walk starts at the Python list address [0x00, 0x00]. -/
def get_temperatures (repo : List Nat → List Nat) (sensors : Nat → List Nat)
    (sdr_count : Nat) : Option (List (List Nat × Option Nat)) × Nat :=
  temp_walk repo sensors sdr_count (WalkAddr.pyList [0x00, 0x00]) []

/-- Outcome of one rmcp_ping liveness probe in the establishment loop. -/
inductive ProbeOutcome
  | success
  | timeout
deriving DecidableEq, Repr

/-- How the establishment loop can end. -/
inductive EstablishOutcome
  | connected
  | retryError
deriving DecidableEq, Repr

/-- The while True probe loop at the end of
SuperMicroFanControl.__init__ (super_micro_fan_controller.py).  probe gives
the outcome of the attempt-th rmcp_ping; retry_count is the Python int
(negative means unlimited); sleeps counts completed time.sleep(retry_timeout)
calls.  fuel bounds how many probes we observe: none means the loop was still
running after fuel probes.  The loop body contains no break or return after a
successful ping, so the success branch simply probes again, exactly as the
source does. -/
def establish_loop (probe : Nat → ProbeOutcome) :
    Int → Nat → Nat → Nat → Option (EstablishOutcome × Nat)
  | _, _, _, 0 => none
  | retry_count, attempt, sleeps, fuel + 1 =>
    match probe attempt with
    | .success => establish_loop probe retry_count (attempt + 1) sleeps fuel
    | .timeout =>
      if retry_count = 0 then some (.retryError, sleeps)
      else establish_loop probe (retry_count - 1) (attempt + 1) (sleeps + 1) fuel

/-- Probe schedule of the spec scenario: the liveness probe times out exactly
twice and then succeeds on every later attempt. -/
def probe_two_timeouts : Nat → ProbeOutcome :=
  fun attempt => if attempt < 2 then ProbeOutcome.timeout else ProbeOutcome.success

/-- Probe schedule that times out on every attempt. -/
def probe_timeout : Nat → ProbeOutcome := fun _ => ProbeOutcome.timeout

/-- Record data of the concrete temperature sensor record used below:
44 bytes with sensor number data[2] = 4, sensor type data[7] = temperature
and the one-byte name data[43:] = [73]. -/
def dataC4 : List Nat := [0, 0, 4, 0, 0, 0, 0, 1] ++ List.replicate 35 0 ++ [73]

/-- Retrieval response: accepted full record whose next_address is the zero
address, record length 44, data dataC4. -/
def respC4 : List Nat := [0, 0, 0, 1, 2, 0, 1, 44] ++ dataC4

/-- The record get_sdr_record decodes from respC4. -/
def recC4 : SdrRecord := ⟨[0, 0], [1, 2], 0, 1, 44, dataC4⟩

/-- Repository serving respC4 at every address. -/
def repoC4 : List Nat → List Nat := fun _ => respC4

/-- Sensor responses: every reading query answers [0, 55] (raw value 55). -/
def sensorsC4 : Nat → List Nat := fun _ => [0, 55]

/-- Retrieval response at the zero address for the C1 run: header length
matches (record length 2, data [5, 5]) but record type 0x11 is neither full
nor compact, so get_sdr_record rejects it as an unsupported type.  Its
next_address points at [0, 1]. -/
def respC1a : List Nat := [0, 0, 1, 2, 2, 0, 0x11, 2, 5, 5]

/-- Record data of the valid temperature record at address [0, 1] in the C1
run: sensor number 7, temperature type, name byte [84]. -/
def dataC1b : List Nat := [0, 0, 7, 0, 0, 0, 0, 1] ++ List.replicate 35 0 ++ [84]

/-- Retrieval response at address [0, 1] for the C1 run: a valid full
temperature record. -/
def respC1b : List Nat := [0, 0, 1, 3, 3, 0, 1, 44] ++ dataC1b

/-- The record get_sdr_record decodes from respC1b. -/
def recC1b : SdrRecord := ⟨[0, 1], [3, 3], 0, 1, 44, dataC1b⟩

/-- Repository for the C1 run: unsupported-type record at the zero address,
valid temperature record at every other address. -/
def repoC1 : List Nat → List Nat :=
  fun a => if a = [0, 0] then respC1a else respC1b

/-- Sensor responses for the C1 run. -/
def sensorsC1 : Nat → List Nat := fun _ => [0, 42]

/-- Record data of the accepted non-temperature record used in the C8 run:
8 bytes, sensor type data[7] = 0. -/
def dataC8 : List Nat := [9, 9, 9, 9, 9, 9, 9, 0]

/-- Retrieval response for the C8 run: accepted full record, record length 8,
next_address equal to the zero address it was read from. -/
def respC8 : List Nat := [0, 0, 0, 1, 1, 0, 1, 8] ++ dataC8

/-- The record get_sdr_record decodes from respC8. -/
def recC8 : SdrRecord := ⟨[0, 0], [1, 1], 0, 1, 8, dataC8⟩

/-- Repository serving respC8 at every address. -/
def repoC8 : List Nat → List Nat := fun _ => respC8

/-- Sensor responses for the C8 run (never consulted). -/
def sensorsC8 : Nat → List Nat := fun _ => [0, 0]

/-- Constant channel used to instantiate the set_fan_speed return-value
witness. -/
def resp_const : Cmd → List Nat := fun _ => [0, 0]

/-- Helper: in the C2 probe schedule, once the attempt index reaches 2 every
probe succeeds, and the loop body recurses without ever producing an outcome. -/
theorem probe_two_timeouts_stuck (fuel : Nat) :
    ∀ (attempt : Nat) (retry_count : Int) (sleeps : Nat), 2 ≤ attempt →
      establish_loop probe_two_timeouts retry_count attempt sleeps fuel = none := by
  induction fuel with
  | zero => intro a rc s _; rfl
  | succ fuel ih =>
    intro a rc s h
    have hp : probe_two_timeouts a = ProbeOutcome.success := by
      simp only [probe_two_timeouts, if_neg (by omega : ¬a < 2)]
    simp only [establish_loop, hp]
    exact ih (a + 1) rc s (by omega)

/-- Helper: the retrieval count of the walk loop never exceeds its fuel,
which the source fixes to the reported record count. -/
theorem temp_walk_count_le (repo : List Nat → List Nat) (sensors : Nat → List Nat) :
    ∀ (n : Nat) (address : WalkAddr) (sensor_data : List (List Nat × Option Nat)),
      (temp_walk repo sensors n address sensor_data).2 ≤ n := by
  intro n
  induction n with
  | zero => intro a s; exact Nat.le_refl 0
  | succ n ih =>
    intro a s
    simp only [temp_walk]
    repeat' split
    all_goals first
      | exact Nat.le_add_left 1 n
      | exact Nat.succ_le_succ (ih _ _)

/-- C1: the spec says an UnsupportedType rejection is a soft skip (walk
continues at the next address) and only LengthMismatch stops the walk.  In the
source both rejections return None from get_sdr_record and the caller breaks
out of the loop on None, so an unsupported record type also stops the walk:
with two records reported, an unsupported-type record at the start address and
a valid temperature record reachable at the next address, the walk stops after
the single rejected retrieval and returns the empty inventory. -/
theorem C1_unsupported_type_stops_walk :
    get_sdr_record (repoC1 [0, 0]) = some DecodeResult.unsupportedType ∧
    get_sdr_record (repoC1 [0, 1]) = some (DecodeResult.ok recC1b) ∧
    recC1b.data.getD 7 0 = SENSOR_TYPE_TEMPERATURE ∧
    get_temperatures repoC1 sensorsC1 2 = (some [], 1) := by
  refine ⟨by decide, by decide, by decide, by decide⟩

/-- C2: the claim says establishment terminates with a ready channel once the
probe succeeds (after exactly 2 retries in the scenario with retryCount = 3
and two timeouts).  The source loop has no exit on a successful ping: the
success branch falls through to the next iteration of while True, so with the
probe schedule of the scenario the loop never produces an outcome at any
observation depth. -/
theorem C2_establish_never_succeeds :
    ∀ fuel : Nat, establish_loop probe_two_timeouts 3 0 0 fuel = none := by
  intro fuel
  match fuel with
  | 0 => rfl
  | 1 => rfl
  | n + 2 =>
    have h0 : probe_two_timeouts 0 = ProbeOutcome.timeout := rfl
    have h1 : probe_two_timeouts 1 = ProbeOutcome.timeout := rfl
    have e1 : establish_loop probe_two_timeouts 3 0 0 (n + 2)
        = establish_loop probe_two_timeouts 2 1 1 (n + 1) := by
      simp only [establish_loop, h0]
      norm_num
    have e2 : establish_loop probe_two_timeouts 2 1 1 (n + 1)
        = establish_loop probe_two_timeouts 1 2 2 n := by
      simp only [establish_loop, h1]
      norm_num
    rw [e1, e2]
    exact probe_two_timeouts_stuck n 2 1 2 (by omega)

/-- C3: whenever the queried fan mode is not FullSpeed, set_fan_speed issues
exactly one mode-write carrying the FullSpeed byte 0x01, and it precedes every
per-zone speed-write; when the queried mode is already FullSpeed, no
mode-write is issued.  Stated via a split of the command trace: a prefix
holding all mode-writes and no speed-writes, followed by exactly the per-zone
speed-writes, which contain no mode-write. -/
theorem C3_mode_write_precedes_speed_writes (fan_mode : FanMode)
    (fan_speeds : List (Zones × Nat)) (_hne : fan_speeds ≠ []) :
    ∃ pre,
      set_fan_speed_cmds fan_mode fan_speeds = pre ++ fan_speeds.map zone_write_cmd ∧
      pre.filter is_mode_write =
        (if fan_mode = FanMode.FULL_SPEED then []
         else [⟨NETFN_SUPER_OEM, [0x45, 0x01, FanMode.FULL_SPEED.value]⟩]) ∧
      pre.filter is_zone_speed_write = [] ∧
      (fan_speeds.map zone_write_cmd).filter is_mode_write = [] := by
  refine ⟨get_fan_mode_cmd ::
    (if fan_mode ≠ FanMode.FULL_SPEED then set_fan_mode_cmds FanMode.FULL_SPEED else []),
    ?_, ?_, ?_, ?_⟩
  · simp [set_fan_speed_cmds]
  · by_cases h : fan_mode = FanMode.FULL_SPEED
    · subst h; decide
    · simp only [if_pos h, if_neg h]
      decide
  · by_cases h : fan_mode = FanMode.FULL_SPEED
    · subst h; decide
    · simp only [if_pos h]
      decide
  · clear _hne
    induction fan_speeds with
    | nil => rfl
    | cons z zs ih =>
      simp only [List.map_cons, List.filter_cons, ih]
      have : is_mode_write (zone_write_cmd z) = false := rfl
      simp [this]

/-- Witness for C3 at a concrete input: queried mode Optimal, one CPU zone
write. -/
theorem C3_mode_write_precedes_speed_writes_witness :
    ∃ pre,
      set_fan_speed_cmds FanMode.OPTIMAL [(Zones.CPU, 30)] =
        pre ++ [(Zones.CPU, 30)].map zone_write_cmd ∧
      pre.filter is_mode_write =
        (if FanMode.OPTIMAL = FanMode.FULL_SPEED then []
         else [⟨NETFN_SUPER_OEM, [0x45, 0x01, FanMode.FULL_SPEED.value]⟩]) ∧
      pre.filter is_zone_speed_write = [] ∧
      ([(Zones.CPU, 30)].map zone_write_cmd).filter is_mode_write = [] :=
  C3_mode_write_precedes_speed_writes FanMode.OPTIMAL [(Zones.CPU, 30)] (by decide)

/-- C4 counterexample: a walk whose very first retrieved record is accepted
with nextAddress equal to the zero start address, yet the walk neither yields
nothing nor stops after one retrieval: the record is a temperature sensor and
contributes an inventory entry, and the first termination comparison (a
bytearray against the initial Python list) never fires, so a second retrieval
happens. -/
theorem C4_first_record_counterexample :
    get_sdr_record (repoC4 [0, 0]) = some (DecodeResult.ok recC4) ∧
    recC4.next_address = [0, 0] ∧
    (get_temperatures repoC4 sensorsC4 2).1 ≠ some [] ∧
    (get_temperatures repoC4 sensorsC4 2).2 ≠ 1 := by
  refine ⟨by decide, by decide, by decide, by decide⟩

/-- C4 amended: when the very first retrieved record is accepted with
nextAddress equal to the zero start address and its fields are readable (the
sensor number and type bytes exist, the reading response is well formed, and —
for a temperature record — the name bytes data[43:] are valid UTF-8 so the
id_string decode does not raise), the walk (with at least two records
reported) retrieves the same record twice — the first equality check compares
the response byte slice against the initial Python list address and never
fires — and terminates after exactly two retrieval attempts; the record is
processed normally, contributing exactly one inventory entry when its sensor
type is temperature and none otherwise. -/
theorem C4_two_retrievals_then_stop (repo : List Nat → List Nat)
    (sensors : Nat → List Nat) (n sensor_number sensor_type : Nat)
    (record : SdrRecord) (reading : Option Nat)
    (hrec : get_sdr_record (repo [0, 0]) = some (DecodeResult.ok record))
    (hnext : record.next_address = [0, 0])
    (hsn : record.data.get? 2 = some sensor_number)
    (hst : record.data.get? 7 = some sensor_type)
    (hid : sensor_type = SENSOR_TYPE_TEMPERATURE →
      utf8_valid (record.data.drop 43) = true)
    (hrd : get_sensor_reading sensors sensor_number = some reading)
    (hn : 2 ≤ n) :
    get_temperatures repo sensors n =
      (some (if sensor_type = SENSOR_TYPE_TEMPERATURE
             then [(record.data.drop 43, reading)] else []), 2) := by
  obtain ⟨m, rfl⟩ : ∃ m, n = m + 2 := ⟨n - 2, by omega⟩
  by_cases hty : sensor_type = SENSOR_TYPE_TEMPERATURE
  · have hv : utf8_valid (record.data.drop 43) = true := hid hty
    simp only [get_temperatures, temp_walk, WalkAddr.bytes, hrec, hnext, hsn, hst, hrd, hty,
      hv, next_address_matches, dict_insert, Prod.map_apply, id_eq, if_true,
      beq_self_eq_true, List.any_nil, List.any_cons, List.nil_append, List.map_cons,
      List.map_nil, Bool.false_eq_true, if_false, Bool.or_false, if_pos, ite_true]
  · simp only [get_temperatures, temp_walk, WalkAddr.bytes, hrec, hnext, hsn, hst, hrd,
      next_address_matches, Prod.map_apply, id_eq, if_neg hty, beq_self_eq_true,
      Bool.false_eq_true, if_false, ite_true]

/-- Witness for the amended C4 at the concrete repository repoC4 (temperature
record, sensor response [0, 55], two records reported). -/
theorem C4_two_retrievals_then_stop_witness :
    get_temperatures repoC4 sensorsC4 2 =
      (some (if (1 : Nat) = SENSOR_TYPE_TEMPERATURE
             then [(recC4.data.drop 43, some 55)] else []), 2) :=
  C4_two_retrievals_then_stop repoC4 sensorsC4 2 4 1 recC4 (some 55)
    (by decide) (by decide) (by decide) (by decide) (fun _ => by decide)
    (by decide) (by decide)

/-- C5: any record response (with a full 8-byte header) whose data slice
length differs from the recordLength byte is rejected as a length mismatch,
whatever the recordType byte holds. -/
theorem C5_length_mismatch_rejection (c a1 a2 r1 r2 v t l : Nat)
    (rest : List Nat) (hlen : rest.length ≠ l) :
    get_sdr_record (c :: a1 :: a2 :: r1 :: r2 :: v :: t :: l :: rest) =
      some DecodeResult.lengthMismatch := by
  simp only [get_sdr_record, if_pos hlen]

/-- Witness for C5: recordType byte 0x01 (a supported type), recordLength 99,
one data byte. -/
theorem C5_length_mismatch_rejection_witness :
    get_sdr_record [0, 0, 0, 0, 0, 0, 1, 99, 7] = some DecodeResult.lengthMismatch :=
  C5_length_mismatch_rejection 0 0 0 0 0 0 1 99 [7] (by decide)

/-- C6 counterexample: the layout of the claim (recordId = bytes[3:6], three bytes,
with sdrVersion = bytes[6]) does not match the decoder.  On a concrete valid
response the decoder produces recordId = bytes[3:5] (two bytes) and
sdrVersion = bytes[5], so the recordId field differs from the claimed slice
bytes[3:6] and the sdrVersion field differs from byte 6. -/
theorem C6_layout_counterexample :
    get_sdr_record [0, 0, 0, 9, 9, 5, 1, 2, 77, 88] =
      some (DecodeResult.ok ⟨[0, 0], [9, 9], 5, 1, 2, [77, 88]⟩) ∧
    ([9, 9] : List Nat) ≠ (([0, 0, 0, 9, 9, 5, 1, 2, 77, 88] : List Nat).drop 3).take 3 ∧
    (5 : Nat) ≠ ([0, 0, 0, 9, 9, 5, 1, 2, 77, 88] : List Nat).getD 6 0 := by
  refine ⟨by decide, by decide, by decide⟩

/-- C6 amended: for every response with a full 8-byte header whose data slice
length equals the recordLength byte and whose recordType byte is Full or
Compact, the decoder returns a record whose fields are the fixed slices
nextAddress = bytes[1:3], recordId = bytes[3:5], sdrVersion = bytes[5],
recordType = bytes[6], recordLength = bytes[7], data = bytes[8:]. -/
theorem C6_decoder_field_slices (c a1 a2 r1 r2 v t l : Nat) (rest : List Nat)
    (hlen : rest.length = l)
    (ht : t = SDR_TYPE_FULL_SENSOR_RECORD ∨ t = SDR_TYPE_COMPACT_SENSOR_RECORD) :
    get_sdr_record (c :: a1 :: a2 :: r1 :: r2 :: v :: t :: l :: rest) =
      some (DecodeResult.ok ⟨[a1, a2], [r1, r2], v, t, l, rest⟩) := by
  rcases ht with rfl | rfl <;>
    simp [get_sdr_record, hlen, SDR_TYPE_FULL_SENSOR_RECORD, SDR_TYPE_COMPACT_SENSOR_RECORD]

/-- Witness for the amended C6 at a concrete full-type response. -/
theorem C6_decoder_field_slices_witness :
    get_sdr_record [0, 1, 2, 3, 4, 5, 1, 2, 10, 11] =
      some (DecodeResult.ok ⟨[1, 2], [3, 4], 5, 1, 2, [10, 11]⟩) :=
  C6_decoder_field_slices 0 1 2 3 4 5 1 2 [10, 11] (by decide) (Or.inl (by decide))

/-- C7: encoding each of the six FanMode members to its byte code and decoding
that byte yields the member back, and any byte outside 0x00-0x05 decodes to a
failure (the ValueError of the enum constructor), never to a default member. -/
theorem C7_fan_mode_round_trip :
    (∀ m : FanMode, FanMode.ofValue m.value = some m) ∧
    (∀ b : Nat, 6 ≤ b → FanMode.ofValue b = none) := by
  constructor
  · intro m; cases m <;> rfl
  · intro b hb
    obtain ⟨k, rfl⟩ : ∃ k, b = k + 6 := ⟨b - 6, by omega⟩
    rfl

/-- Witness for C7: round trip at Optimal and failure at byte 0x06. -/
theorem C7_fan_mode_round_trip_witness :
    FanMode.ofValue FanMode.OPTIMAL.value = some FanMode.OPTIMAL ∧
    FanMode.ofValue 6 = none :=
  ⟨C7_fan_mode_round_trip.1 FanMode.OPTIMAL, C7_fan_mode_round_trip.2 6 (by decide)⟩

/-- C8: the walk performs at most sdrCount + 1 retrievals (the source in fact
performs at most sdrCount, the range bound).  The second half of the claim — the
walk terminates whenever the nextAddress of a record equals the address just read —
fails on the first iteration: with every address serving an accepted record
whose nextAddress equals the zero start address, the first comparison (a
bytearray response slice against the initial Python list) never fires and a
second retrieval is performed. -/
theorem C8_retrieval_bound_and_missed_sentinel :
    (∀ (repo : List Nat → List Nat) (sensors : Nat → List Nat) (sdr_count : Nat),
        (get_temperatures repo sensors sdr_count).2 ≤ sdr_count + 1) ∧
    get_sdr_record (repoC8 [0, 0]) = some (DecodeResult.ok recC8) ∧
    recC8.next_address = [0, 0] ∧
    (get_temperatures repoC8 sensorsC8 5).2 = 2 := by
  refine ⟨fun repo sensors c =>
    Nat.le_trans (temp_walk_count_le repo sensors c _ _) (Nat.le_succ c),
    by decide, by decide, by decide⟩

/-- C9: with retryCount = 0, a first failing probe makes establishment raise
RetryError (named ConnectionExhausted by the spec) immediately, with zero sleeps
performed before the failure. -/
theorem C9_zero_retry_fails_immediately (probe : Nat → ProbeOutcome)
    (h : probe 0 = ProbeOutcome.timeout) (fuel : Nat) (hf : 1 ≤ fuel) :
    establish_loop probe 0 0 0 fuel = some (EstablishOutcome.retryError, 0) := by
  match fuel, hf with
  | fuel + 1, _ => simp [establish_loop, h]

/-- Witness for C9 with a probe that always times out, observed at depth 1. -/
theorem C9_zero_retry_fails_immediately_witness :
    establish_loop probe_timeout 0 0 0 1 = some (EstablishOutcome.retryError, 0) :=
  C9_zero_retry_fails_immediately probe_timeout rfl 1 (by decide)

/-- C10: set_fan_speed called with an empty zone-speed mapping does not return
a response — the loop body that binds the response variable never runs and the
final return raises an unbound-variable error (modelled as none) — while any
non-empty mapping yields the response of the last zone write. -/
theorem C10_empty_zone_speeds_no_return (resp : Cmd → List Nat)
    (fan_speeds : List (Zones × Nat)) :
    set_fan_speed_ret resp [] = none ∧
      (fan_speeds ≠ [] → ∃ r, set_fan_speed_ret resp fan_speeds = some r) := by
  constructor
  · rfl
  · intro h
    have hne : fan_speeds.map (fun zs => resp (zone_write_cmd zs)) ≠ [] := by
      simpa using h
    have hs : (fan_speeds.map (fun zs => resp (zone_write_cmd zs))).getLast?.isSome := by
      rw [List.getLast?_isSome]
      exact hne
    exact Option.isSome_iff_exists.mp hs

/-- Witness for C10: empty mapping gives no response, the singleton CPU
mapping returns a response, over the constant channel. -/
theorem C10_empty_zone_speeds_no_return_witness :
    set_fan_speed_ret resp_const [] = none ∧
      ∃ r, set_fan_speed_ret resp_const [(Zones.CPU, 30)] = some r :=
  ⟨(C10_empty_zone_speeds_no_return resp_const []).1,
   (C10_empty_zone_speeds_no_return resp_const [(Zones.CPU, 30)]).2 (by decide)⟩
